import Mathlib

/-!
Verification of the Racelith penalty-tracking frontend business logic.

The definitions below are shallow embeddings of the TypeScript/JavaScript
functions of the repository:

* `src/frontend/src/components/popup/popupScript.ts` — `isExpired`,
  `isPenaltyEntry`, `getStatus`, `isSecondWarning`, the popup WebSocket
  `onmessage` handler;
* `src/unnamed/part_004` (paginated `InfringementLog`) — `isPenaltyEntry`,
  `isWarningExpired`, `isSecondWarning` (identical to the popup version),
  the inline status-label derivation;
* `src/unnamed/part_003` (non-paginated `InfringementLog` with popup) —
  the inline status-label derivation;
* `src/frontend/src/components/InfringementLog.tsx` — the simplified
  status-badge derivation;
* `src/frontend/src/App.tsx` — `loadData`, the WebSocket `onmessage` handler;
* `src/frontend/src/components/InfringementForm.tsx` — the auto-"Warning"
  combobox handler.

Timestamps are in milliseconds (the JavaScript code converts ISO strings with
`new Date(...).getTime()`; we embed the millisecond values directly).
JavaScript string truthiness (`null`/`""` falsy) is modelled by `jsStrTruthy`,
`x || ""` followed by `.toLowerCase()` by `jsLower`, and `String.includes`
by `strIncludes`.  `warning_expiry_minutes` is an integer number of minutes;
`diffMinutes > WARNING_EXPIRY_MINUTES` with `diffMinutes = (now - ts) / 60000`
is the exact rational comparison `now - ts > thr * 60000`.
-/

/-- One infringement record as used by the rendering logic
(`InfringementRecord` in `src/frontend/src/api.ts`).  The fields
`turn_number`, `observer` and `warning_count` are never read by the functions
verified here and are omitted. -/
structure Infringement where
  id : Int
  kart_number : Int
  description : Option String
  penalty_description : Option String
  penalty_due : String
  penalty_taken : Option String
  timestamp : Int
deriving DecidableEq, Repr

/-- JavaScript truthiness of a nullable string: `null` and `""` are falsy. -/
def jsStrTruthy : Option String → Bool
  | none => false
  | some s => !(s == "")

/-- ASCII lowercasing of a string, character by character (the behaviour of
JavaScript `toLowerCase` on the ASCII vocabulary used by this program). -/
def lowerStr (s : String) : String := ⟨s.data.map Char.toLower⟩

/-- `(x || "").toLowerCase()` for a nullable string. -/
def jsLower (o : Option String) : String := lowerStr (o.getD "")

/-- Char-list prefix test used to implement `String.includes`. -/
def matchHere : List Char → List Char → Bool
  | [], _ => true
  | _ :: _, [] => false
  | a :: as, b :: bs => a == b && matchHere as bs

/-- Char-list substring test used to implement `String.includes`. -/
def containsPat (pat : List Char) : List Char → Bool
  | [] => pat.isEmpty
  | c :: rest => matchHere pat (c :: rest) || containsPat pat rest

/-- JavaScript `s.includes(pat)`. -/
def strIncludes (s pat : String) : Bool := containsPat pat.data s.data

/-- `isExpired` from `popupScript.ts` (lines 27-33); identical to
`isWarningExpired` of `src/unnamed/part_004` (lines 59-65) and `isExpired`
of `src/unnamed/part_003`.  `now` and the record timestamp are in
milliseconds, `thr` is `WARNING_EXPIRY_MINUTES`. -/
def isExpired (now thr : Int) (inf : Infringement) : Bool :=
  inf.penalty_description == some "Warning" && decide (now - inf.timestamp > thr * 60000)

/-- `isPenaltyEntry` from `popupScript.ts` (lines 36-45).  Note the applied
arm tests only `!(inf.penalty_description === "Warning")`, not
`hasMeaningfulPenalty`. -/
def isPenaltyEntry (inf : Infringement) : Bool :=
  let description := jsLower inf.penalty_description
  let hasMeaningfulPenalty :=
    jsStrTruthy inf.penalty_description &&
    !(description == "warning") &&
    !(description == "no further action")
  let pendingPenalty := inf.penalty_due == "Yes" && hasMeaningfulPenalty
  let appliedPenalty := inf.penalty_due == "No" && jsStrTruthy inf.penalty_taken &&
    !(inf.penalty_description == some "Warning")
  pendingPenalty || appliedPenalty

/-- `isPenaltyEntry` from `src/unnamed/part_004` (lines 47-56).  Here the
applied arm requires `hasMeaningfulPenalty`. -/
def isPenaltyEntryTable (inf : Infringement) : Bool :=
  let description := jsLower inf.penalty_description
  let hasMeaningfulPenalty :=
    jsStrTruthy inf.penalty_description &&
    !(description == "warning") &&
    !(description == "no further action")
  let pendingPenalty := inf.penalty_due == "Yes" && hasMeaningfulPenalty
  let appliedPenalty := inf.penalty_due == "No" && jsStrTruthy inf.penalty_taken &&
    hasMeaningfulPenalty
  pendingPenalty || appliedPenalty

/-- `getStatus` from `popupScript.ts` (lines 48-59). -/
def getStatus (now thr : Int) (inf : Infringement) : String :=
  let isWarning := inf.penalty_description == some "Warning"
  let applied := inf.penalty_due == "No" && jsStrTruthy inf.penalty_taken && !isWarning
  let isNoFurtherAction := inf.penalty_description == some "No further action"
  if applied then "Applied"
  else if isExpired now thr inf then "Expired"
  else if isWarning then "Warning"
  else if isNoFurtherAction && inf.penalty_due == "No" then "No action"
  else if inf.penalty_due == "Yes" then "Pending"
  else "Cleared"

/-- The inline status-label derivation of the paginated table,
`src/unnamed/part_004` lines 363-415 (`statusLabel`). -/
def statusPaginated (now thr : Int) (inf : Infringement) : String :=
  let isWarning := inf.penalty_description == some "Warning"
  let isExpiredWarning := isWarning && decide (now - inf.timestamp > thr * 60000)
  let penaltyApplied := inf.penalty_due == "No" && jsStrTruthy inf.penalty_taken && !isWarning
  let isNoFurtherAction := inf.penalty_description == some "No further action"
  if penaltyApplied then "Applied"
  else if isExpiredWarning then "Expired"
  else if isWarning then "Warning"
  else if isNoFurtherAction && inf.penalty_due == "No" then "No action"
  else if inf.penalty_due == "Yes" then "Pending"
  else "Cleared"

/-- The inline status-label derivation of the non-paginated table,
`src/unnamed/part_003` lines 183-223 (`statusLabel`). -/
def statusNonPaginated (now thr : Int) (inf : Infringement) : String :=
  let isWarning := inf.penalty_description == some "Warning"
  let isExpiredWarning := isWarning && decide (now - inf.timestamp > thr * 60000)
  let penaltyApplied := inf.penalty_due == "No" && jsStrTruthy inf.penalty_taken && !isWarning
  let isNoFurtherAction := inf.penalty_description == some "No further action"
  if penaltyApplied then "Applied"
  else if isExpiredWarning then "Expired"
  else if isWarning then "Warning"
  else if isNoFurtherAction && inf.penalty_due == "No" then "No action"
  else if inf.penalty_due == "Yes" then "Pending"
  else "Cleared"

/-- The status-badge derivation of the `InfringementLog` component,
`src/frontend/src/components/InfringementLog.tsx` lines 52-71:
`penaltyApplied ? "Applied" : (penalty_due === "Yes" ? "Pending" : "Cleared")`
with `penaltyApplied = penalty_due === "No" && Boolean(penalty_taken)`. -/
def statusSimpleLog (inf : Infringement) : String :=
  let penaltyApplied := inf.penalty_due == "No" && jsStrTruthy inf.penalty_taken
  if penaltyApplied then "Applied"
  else if inf.penalty_due == "Yes" then "Pending"
  else "Cleared"

/-- Ascending-timestamp ordering used by `validWarnings.sort((a, b) => ... a - b)`. -/
def tsLe (a b : Infringement) : Prop := a.timestamp ≤ b.timestamp

/-- Descending-timestamp ordering used by the `lastPenalty` sort
(`(a, b) => ... b - a`). -/
def tsGe (a b : Infringement) : Prop := b.timestamp ≤ a.timestamp

instance : DecidableRel tsLe := fun a b => Int.decLe a.timestamp b.timestamp

instance : DecidableRel tsGe := fun a b => Int.decLe b.timestamp a.timestamp

instance : IsTotal Infringement tsLe := ⟨fun a b => Int.le_total a.timestamp b.timestamp⟩

instance : IsTrans Infringement tsLe := ⟨fun _ _ _ hab hbc => le_trans hab hbc⟩

instance : IsTotal Infringement tsGe := ⟨fun a b => Int.le_total b.timestamp a.timestamp⟩

instance : IsTrans Infringement tsGe := ⟨fun _ _ _ hab hbc => le_trans hbc hab⟩

/-- JavaScript `Array.prototype.findIndex` (which the source compares with
`=== 1`); `none` stands for the JavaScript result `-1`. -/
def findIdxO (p : Infringement → Bool) : List Infringement → Option Nat
  | [] => none
  | a :: rest => if p a then some 0 else (findIdxO p rest).map (· + 1)

/-- The `lastPenalty` selection inside `isSecondWarning`
(`popupScript.ts` lines 89-95): filter the snapshot to the same kart, a
description containing the accrual pattern `pat`, and `penalty_due === "Yes"`;
sort descending by timestamp; take the first element. -/
def lastPenalty (kart : Int) (pat : String) (all : List Infringement) : Option Infringement :=
  (List.insertionSort tsGe
    (all.filter (fun i =>
      i.kart_number == kart &&
      (jsStrTruthy i.description && strIncludes (jsLower i.description) pat) &&
      i.penalty_due == "Yes"))).head?

/-- The `cycleStart` computation inside `isSecondWarning`
(`popupScript.ts` lines 97-100): `Math.max(expiryThreshold, lastPenalty.timestamp)`
when a last penalty exists, the expiry threshold `now - thr minutes` otherwise. -/
def cycleStart (now thr : Int) (kart : Int) (pat : String) (all : List Infringement) : Int :=
  match lastPenalty kart pat all with
  | some p => max (now - thr * 60000) p.timestamp
  | none => now - thr * 60000

/-- The `validWarnings` filter inside `isSecondWarning`
(`popupScript.ts` lines 102-127): same kart, description matching the accrual
pattern, `penalty_description === "Warning"`, not `penalty_due === "Yes"`,
timestamp not before the cycle start `cs`, not expired, and timestamp at or
before the evaluated record's timestamp. -/
def validWarnings (now thr : Int) (inf : Infringement) (pat : String) (cs : Int)
    (all : List Infringement) : List Infringement :=
  all.filter (fun i =>
    i.kart_number == inf.kart_number &&
    strIncludes (jsLower i.description) pat &&
    i.penalty_description == some "Warning" &&
    !(i.penalty_due == "Yes") &&
    !decide (i.timestamp < cs) &&
    !(isExpired now thr i) &&
    decide (i.timestamp ≤ inf.timestamp))

/-- `isSecondWarning` from `popupScript.ts` lines 70-137; the function of the
same name in `src/unnamed/part_004` lines 69-136 is line-for-line identical
(up to `i.description?.toLowerCase()` versus `i.description &&
i.description.toLowerCase()`, which agree because a nonempty pattern is never
contained in the empty string). -/
def isSecondWarning (now thr : Int) (inf : Infringement) (all : List Infringement) : Bool :=
  let isWarning := inf.penalty_description == some "Warning"
  if !isWarning then false
  else
    let description := jsLower inf.description
    let isWhiteLine := strIncludes description "white line infringement"
    let isYellowZone := strIncludes description "yellow zone"
    if !isWhiteLine && !isYellowZone then false
    else if isExpired now thr inf then false
    else
      let pat := if isWhiteLine then "white line infringement" else "yellow zone"
      let cs := cycleStart now thr inf.kart_number pat all
      let sortedValid := List.insertionSort tsLe (validWarnings now thr inf pat cs all)
      findIdxO (fun w => w.id == inf.id) sortedValid == some 1

/-- Helper for building white-line warning records in concrete scenarios. -/
def mkWLWarning (i : Int) (kart : Int) (ts : Int) : Infringement :=
  ⟨i, kart, some "White Line Infringement", some "Warning", "No", none, ts⟩


/-- The event types on which the main dashboard re-fetches
(`src/frontend/src/App.tsx` lines 170-180, `relevantTypes`). -/
def appRelevantTypes : List String :=
  ["new_infringement", "update_infringement", "delete_infringement", "penalty_applied",
   "session_started", "session_loaded", "session_closed", "session_deleted",
   "session_imported"]

/-- The main dashboard's `socket.onmessage` decision
(`App.tsx` lines 167-187): re-fetch (`loadData(false)`) exactly when the
parsed message's `type` is in `relevantTypes`; no payload besides `type` is
read.  (The `message?.type &&` truthiness guard only excludes `""`, which is
not in the set anyway.) -/
def appRefetches (t : String) : Bool := appRelevantTypes.contains t

/-- The event types on which the popup window re-fetches
(`popupScript.ts` line 519). -/
def popupRelevantTypes : List String :=
  ["new_infringement", "update_infringement", "delete_infringement", "penalty_applied"]

/-- The popup window's `socket.onmessage` decision
(`popupScript.ts` lines 516-525): `refreshTable()` exactly when the message's
`type` is in its four-element list; no payload is read. -/
def popupRefetches (t : String) : Bool := popupRelevantTypes.contains t

/-- A session summary as returned by `listSessions`
(`SessionSummary` in `api.ts`; `started_at` is unused here). -/
structure SessionSummary where
  name : String
  status : String
deriving DecidableEq, Repr

/-- A pending-penalty row (`PendingPenalty` in `api.ts`); only its identity
matters for the claims, so the other fields are omitted. -/
structure PendingPenaltyRec where
  id : Int
deriving DecidableEq, Repr

/-- The client state touched by `loadData` in `App.tsx`. -/
structure ClientState where
  hasActiveSession : Option Bool
  infringements : List Infringement
  pendingPenalties : List PendingPenaltyRec
  loadError : Option String
  isLoading : Bool
deriving DecidableEq, Repr

/-- `checkActiveSession`'s result (`App.tsx` lines 67-81): whether the session
list contains a session with `status === "active"`. -/
def hasActiveB (sessions : List SessionSummary) : Bool :=
  sessions.any (fun s => s.status == "active")

/-- The load-error message set by `loadData` when no session is active. -/
def noActiveMsg : String :=
  "No active session. Please create or load a session to view infringements."

/-- `loadData` from `App.tsx` lines 83-134, on its success path (the `catch`
branch for transport failures is outside the claims considered here).
Inputs: the `withSpinner` argument (default `true` at the call sites that
show the spinner), the session list the server returns, and the infringement
and pending-penalty lists the two fetches would return.  Result: the new
client state and whether the `fetchInfringements`/`fetchPendingPenalties`
requests were issued. -/
def loadData (withSpinner : Bool) (sessions : List SessionSummary)
    (inf : List Infringement) (pend : List PendingPenaltyRec)
    (st : ClientState) : ClientState × Bool :=
  let st1 := if withSpinner then { st with isLoading := true, loadError := none } else st
  if !(hasActiveB sessions) then
    ({ st1 with
        hasActiveSession := some false,
        infringements := [],
        pendingPenalties := [],
        loadError := if withSpinner then some noActiveMsg else st1.loadError,
        isLoading := if withSpinner then false else st1.isLoading }, false)
  else
    ({ st1 with
        hasActiveSession := some true,
        infringements := inf,
        pendingPenalties := pend,
        loadError := none,
        isLoading := if withSpinner then false else st1.isLoading }, true)

/-- The destructive "Unable to Load Data" alert is rendered exactly when
`loadError` is non-null (`App.tsx` lines 412-418). -/
def rendersErrorBanner (st : ClientState) : Bool := st.loadError.isSome

/-- The "No Active Session" alert is rendered exactly when
`hasActiveSession === false && !isLoading` (`App.tsx` lines 420-428). -/
def showsNoActiveBanner (st : ClientState) : Bool :=
  st.hasActiveSession == some false && !st.isLoading

/-- The infringement combobox `onValueChange` handler of `InfringementForm`
(`src/frontend/src/components/InfringementForm.tsx` lines 161-180): selecting
"White Line Infringement" or "Yellow Zone Infringement" forces the penalty
description to "Warning"; any other selection leaves it unchanged. -/
def formAutoPenalty (value : String) (current : String) : String :=
  if value == "White Line Infringement" || value == "Yellow Zone Infringement" then "Warning"
  else current

/-- Modelled from the spec: intake matching of a prior infringement against a
kart and normalized accrual type (the backend that owns this decision is not
under `src/`; spec section 4.1, inputs paragraph). -/
def specMatchesKartType (kart : Int) (pat : String) (i : Infringement) : Bool :=
  i.kart_number == kart && strIncludes (jsLower i.description) pat

/-- Modelled from the spec: a warning is live if `penalty_description ==
"Warning"`, `penalty_due == "No"`, and it is not expired (spec section 4.1,
rules 1-2; the backend is not under `src/`). -/
def specIsLive (now thr : Int) (i : Infringement) : Bool :=
  i.penalty_description == some "Warning" && i.penalty_due == "No" &&
    !decide (now - i.timestamp > thr * 60000)

/-- Modelled from the spec: the accrual cycle start, `max(now − expiry
threshold, timestamp of the most recent prior penalty-triggering occurrence)`
(spec section 4.1, rule 3; the backend is not under `src/`). -/
def specServerCycleStart (now thr : Int) (kart : Int) (pat : String)
    (priors : List Infringement) : Int :=
  let penTs := (priors.filter (fun i =>
    specMatchesKartType kart pat i && i.penalty_due == "Yes")).map (·.timestamp)
  match penTs.max? with
  | some m => max (now - thr * 60000) m
  | none => now - thr * 60000

/-- Modelled from the spec: the number of live prior warnings of the kart/type
within the current cycle (spec section 4.1, rule 4; the backend is not under
`src/`). -/
def specLiveCount (now thr : Int) (kart : Int) (pat : String)
    (priors : List Infringement) : Nat :=
  (priors.filter (fun i =>
    specMatchesKartType kart pat i && specIsLive now thr i &&
    !decide (i.timestamp < specServerCycleStart now thr kart pat priors))).length

/-- Modelled from the spec: the outcome the server assigns to a newly logged
occurrence of an accrual-tracked type (spec section 4.1, rules 5-7; the
backend is not under `src/`).  The new occurrence itself is the
`specLiveCount priors + 1`-st live occurrence of the cycle; the 1st and 2nd
get `("Warning", "No")`, from the 3rd on the operator selects a real penalty
outcome `manual`. -/
def specServerOutcome (now thr : Int) (kart : Int) (pat : String)
    (manual : String × String) (priors : List Infringement) : String × String :=
  if specLiveCount now thr kart pat priors + 1 ≤ 2 then ("Warning", "No") else manual

/-- The cycle start as worded by the claim for comparison with the code's
`cycleStart`: `max(now − expiry threshold, timestamp of the most recent
**prior** (strictly earlier than the evaluated occurrence, at `evalTs`)
infringement of the kart/type with `penalty_due == "Yes"`)`. -/
def specCycleStartPrior (now thr : Int) (kart : Int) (pat : String) (evalTs : Int)
    (all : List Infringement) : Int :=
  let priorTs := (all.filter (fun i =>
    i.kart_number == kart && strIncludes (jsLower i.description) pat &&
    i.penalty_due == "Yes" && decide (i.timestamp < evalTs))).map (·.timestamp)
  match priorTs.max? with
  | some m => max (now - thr * 60000) m
  | none => now - thr * 60000

/-- The penalties-view pending arm as worded by the claim: `penalty_due ==
"Yes"` with a meaningful penalty description (non-null and, lowercased,
neither "warning" nor "no further action"). -/
def specPendingPenalty (inf : Infringement) : Prop :=
  inf.penalty_due = "Yes" ∧ jsStrTruthy inf.penalty_description = true ∧
    jsLower inf.penalty_description ≠ "warning" ∧
    jsLower inf.penalty_description ≠ "no further action"

/-- The penalties-view applied arm as worded by the claim: `penalty_due ==
"No"` with a non-null `penalty_taken` and a meaningful penalty description. -/
def specAppliedPenalty (inf : Infringement) : Prop :=
  inf.penalty_due = "No" ∧ jsStrTruthy inf.penalty_taken = true ∧
    jsStrTruthy inf.penalty_description = true ∧
    jsLower inf.penalty_description ≠ "warning" ∧
    jsLower inf.penalty_description ≠ "no further action"

/-- The applied arm the popup actually implements: `penalty_due == "No"`,
truthy `penalty_taken`, and `penalty_description` not literally `"Warning"`. -/
def popupAppliedPenalty (inf : Infringement) : Prop :=
  inf.penalty_due = "No" ∧ jsStrTruthy inf.penalty_taken = true ∧
    inf.penalty_description ≠ some "Warning"

/-- The accrual pattern `isSecondWarning` derives from a record's
description: "white line infringement" when the lowercased description
contains that phrase, "yellow zone" otherwise (the ternary on `isWhiteLine`
in `popupScript.ts` lines 92 and 107-109). -/
def patOf (i : Infringement) : String :=
  if strIncludes (jsLower i.description) "white line infringement" then
    "white line infringement"
  else "yellow zone"

/-- Claim C5: an infringement whose description contains neither
"white line infringement" nor "yellow zone" (case-insensitively) is never
assigned the second-warning display flag; only the two accrual-tracked types
can produce a true result. -/
theorem C5_non_accrual_never_flagged (now thr : Int) (inf : Infringement)
    (all : List Infringement)
    (hWL : strIncludes (jsLower inf.description) "white line infringement" = false)
    (hYZ : strIncludes (jsLower inf.description) "yellow zone" = false) :
    isSecondWarning now thr inf all = false := by
  unfold isSecondWarning
  simp [hWL, hYZ]

/-- Witness for C5 at a concrete "Contact" infringement. -/
theorem C5_non_accrual_never_flagged_witness :
    strIncludes (jsLower (some "Contact")) "white line infringement" = false ∧
    strIncludes (jsLower (some "Contact")) "yellow zone" = false ∧
    isSecondWarning 0 180 ⟨1, 7, some "Contact", some "Warning", "No", none, 0⟩ [] = false :=
  ⟨by decide, by decide,
    C5_non_accrual_never_flagged 0 180 ⟨1, 7, some "Contact", some "Warning", "No", none, 0⟩ []
      (by decide) (by decide)⟩

/-- Claim C4 counterexample: the status derivations are not extensionally
equal across all rendering surfaces.  On a live warning record the popup's
`getStatus` yields "Warning" while the `InfringementLog` component
(`InfringementLog.tsx`) yields "Cleared" (it has no Expired/Warning/No-action
branches at all). -/
theorem C4_status_surfaces_counterexample :
    getStatus 0 180 (mkWLWarning 1 7 0) = "Warning" ∧
    statusSimpleLog (mkWLWarning 1 7 0) = "Cleared" ∧
    getStatus 0 180 (mkWLWarning 1 7 0) ≠ statusSimpleLog (mkWLWarning 1 7 0) := by
  decide

/-- Claim C4, amended: the popup window, the paginated table and the
non-paginated table share one status derivation (Applied → Expired → Warning
→ No action → Pending → Cleared, in that priority order), and it always
returns one of the six labels; the `InfringementLog.tsx` component, however,
uses a reduced Applied/Pending/Cleared derivation and disagrees (see the
counterexample). -/
theorem C4_status_label_amended (now thr : Int) (inf : Infringement) :
    getStatus now thr inf = statusPaginated now thr inf ∧
    getStatus now thr inf = statusNonPaginated now thr inf ∧
    getStatus now thr inf ∈
      ["Applied", "Expired", "Warning", "No action", "Pending", "Cleared"] := by
  refine ⟨rfl, rfl, ?_⟩
  unfold getStatus isExpired
  cases h1 : (inf.penalty_due == "No") <;>
  cases h2 : jsStrTruthy inf.penalty_taken <;>
  cases h3 : (inf.penalty_description == some "Warning") <;>
  cases h4 : decide (now - inf.timestamp > thr * 60000) <;>
  cases h5 : (inf.penalty_description == some "No further action") <;>
  cases h6 : (inf.penalty_due == "Yes") <;>
  simp [h1, h2, h3, h4, h5, h6]

/-- Claim C6 counterexample: the two penalties-filter implementations are not
the same.  A record with `penalty_due = "No"`, a non-null `penalty_taken` and
a null `penalty_description` is selected by the popup's `isPenaltyEntry` but
rejected by the table's (which demands a meaningful penalty description). -/
theorem C6_penalty_entry_counterexample :
    isPenaltyEntry ⟨1, 7, some "Contact", none, "No", some "Op", 0⟩ = true ∧
    isPenaltyEntryTable ⟨1, 7, some "Contact", none, "No", some "Op", 0⟩ = false := by
  decide

/-- Claim C6, amended: the table's classification selects exactly the pending
(due "Yes" with meaningful description) and applied (due "No", non-null
`penalty_taken`, meaningful description) records, as the claim words it; the
popup's applied arm instead only requires `penalty_description` to differ
from the literal "Warning", so the two surfaces disagree on records whose
description is null, "No further action", or a case-variant of "warning". -/
theorem C6_penalty_entry_amended (inf : Infringement) :
    (isPenaltyEntryTable inf = true ↔ specPendingPenalty inf ∨ specAppliedPenalty inf) ∧
    (isPenaltyEntry inf = true ↔ specPendingPenalty inf ∨ popupAppliedPenalty inf) := by
  constructor <;>
  · simp only [isPenaltyEntryTable, isPenaltyEntry, specPendingPenalty, specAppliedPenalty,
      popupAppliedPenalty, Bool.or_eq_true, Bool.and_eq_true, Bool.not_eq_true',
      beq_iff_eq, beq_eq_false_iff_ne, ne_eq]
    tauto

/-- Witness for C6's amended theorem at a concrete applied record. -/
theorem C6_penalty_entry_amended_witness :
    isPenaltyEntry ⟨1, 7, some "Contact", none, "No", some "Op", 0⟩ = true :=
  (C6_penalty_entry_amended ⟨1, 7, some "Contact", none, "No", some "Op", 0⟩).2.mpr
    (Or.inr ⟨rfl, by decide, by decide⟩)

/-- Claim C8 counterexample: not every subscribed client re-fetches on all
nine event types.  The popup window's handler ignores `"session_closed"`
(and every other session-level event), although the main dashboard re-fetches
on it. -/
theorem C8_popup_ignores_session_events :
    popupRefetches "session_closed" = false ∧
    appRefetches "session_closed" = true := by
  decide

/-- Claim C8, amended: the main dashboard re-fetches exactly on the nine
listed event types and the popup window exactly on the four
infringement-level types (a subset of the nine); neither reads any payload
beyond `type`, and any other type triggers no re-fetch on either client. -/
theorem C8_refetch_types_amended (t : String) :
    (appRefetches t = true ↔ t ∈ appRelevantTypes) ∧
    (popupRefetches t = true ↔ t ∈ popupRelevantTypes) ∧
    (popupRefetches t = true → appRefetches t = true) := by
  refine ⟨?_, ?_, ?_⟩
  · simp [appRefetches, appRelevantTypes, List.contains, List.elem_iff]
  · simp [popupRefetches, popupRelevantTypes, List.contains, List.elem_iff]
  · simp only [appRefetches, popupRefetches, appRelevantTypes, popupRelevantTypes,
      List.contains, List.elem_iff, List.mem_cons, List.not_mem_nil]
    tauto

/-- Witness for C8's amended theorem at `"penalty_applied"`. -/
theorem C8_refetch_types_amended_witness :
    appRefetches "penalty_applied" = true :=
  (C8_refetch_types_amended "penalty_applied").1.mpr (by decide)

/-- Claim C9 counterexample: `loadData` does not always record a load error
when no session is active.  Invoked in background mode (`withSpinner =
false`, as the WebSocket push handler does), it skips the fetches and empties
the lists but leaves `loadError` untouched, so no blocking banner is shown
for the error. -/
theorem C9_background_refresh_records_no_error :
    hasActiveB [⟨"race1", "inactive"⟩] = false ∧
    (loadData false [⟨"race1", "inactive"⟩] [] [] ⟨none, [], [], none, false⟩).2 = false ∧
    (loadData false [⟨"race1", "inactive"⟩] [] []
      ⟨none, [], [], none, false⟩).1.loadError = none := by
  decide

/-- Claim C9, amended: `loadData` issues the infringement and pending-penalty
fetches exactly when an active session exists; with no active session it
empties both local lists and marks the session inactive on every invocation,
and it records the load error (surfaced as the blocking banner, alongside the
No Active Session alert) when invoked in its default spinner mode
(`withSpinner = true`). -/
theorem C9_no_active_session_amended (w : Bool) (sessions : List SessionSummary)
    (inf : List Infringement) (pend : List PendingPenaltyRec) (st : ClientState) :
    ((loadData w sessions inf pend st).2 = hasActiveB sessions) ∧
    (hasActiveB sessions = false →
      (loadData w sessions inf pend st).1.infringements = [] ∧
      (loadData w sessions inf pend st).1.pendingPenalties = [] ∧
      (loadData w sessions inf pend st).1.hasActiveSession = some false ∧
      (w = true →
        (loadData w sessions inf pend st).1.loadError = some noActiveMsg ∧
        rendersErrorBanner (loadData w sessions inf pend st).1 = true ∧
        showsNoActiveBanner (loadData w sessions inf pend st).1 = true)) := by
  cases hA : hasActiveB sessions <;> cases w <;>
    simp [loadData, hA, rendersErrorBanner, showsNoActiveBanner]

/-- Witness for C9's amended theorem: a default (`withSpinner = true`)
invocation with no active session. -/
theorem C9_no_active_session_amended_witness :
    (loadData true [⟨"race1", "inactive"⟩] [] []
      ⟨none, [], [], none, false⟩).1.loadError = some noActiveMsg :=
  (((C9_no_active_session_amended true [⟨"race1", "inactive"⟩] [] []
    ⟨none, [], [], none, false⟩).2 (by decide)).2.2.2 rfl).1

/-- Claim C7: for a kart/type with no prior infringement of that kart and
accrual type, the accrual rule assigns `penalty_description = "Warning"` and
`penalty_due = "No"` to the first logged occurrence (spec-modelled server
outcome), and the infringement form likewise auto-fills "Warning" when an
accrual-tracked type is selected. -/
theorem C7_first_occurrence_warning (now thr kart : Int) (pat : String)
    (manual : String × String) (priors : List Infringement)
    (h : priors.filter (fun i => specMatchesKartType kart pat i) = []) :
    specServerOutcome now thr kart pat manual priors = ("Warning", "No") ∧
    (∀ current, formAutoPenalty "White Line Infringement" current = "Warning" ∧
      formAutoPenalty "Yellow Zone Infringement" current = "Warning") := by
  constructor
  · have hnone : ∀ i ∈ priors, specMatchesKartType kart pat i = false := by
      intro i hi
      have hall := List.filter_eq_nil_iff.mp h
      simpa using hall i hi
    have hcount : specLiveCount now thr kart pat priors = 0 := by
      unfold specLiveCount
      rw [List.length_eq_zero, List.filter_eq_nil_iff]
      intro i hi
      simp [hnone i hi]
    simp [specServerOutcome, hcount]
  · intro current
    exact ⟨rfl, rfl⟩

/-- Witness for C7 with an empty prior history. -/
theorem C7_first_occurrence_warning_witness :
    specServerOutcome 0 180 7 "white line infringement" ("5 Sec", "Yes") [] =
      ("Warning", "No") :=
  (C7_first_occurrence_warning 0 180 7 "white line infringement" ("5 Sec", "Yes") [] rfl).1

/-- Claim C2 counterexample: the cycle start used by `isSecondWarning` is not
the claim's `max(now − threshold, most recent prior penalty)`.  With warnings
at 10000000 and 10600000 and a penalty-due infringement at 12000000 (later
than both), the code's cycle start is 12000000 — the later penalty resets the
cycle — while the claim's value is the expiry threshold 9200000; accordingly
the occurrence at 10600000 is not flagged although the claim's cycle start
would flag it as the second live warning. -/
theorem C2_cycle_start_counterexample :
    cycleStart 20000000 180 7 "white line infringement"
      [mkWLWarning 1 7 10000000, mkWLWarning 2 7 10600000,
       ⟨3, 7, some "White Line Infringement", some "5 Sec", "Yes", none, 12000000⟩]
      = 12000000 ∧
    specCycleStartPrior 20000000 180 7 "white line infringement" 10600000
      [mkWLWarning 1 7 10000000, mkWLWarning 2 7 10600000,
       ⟨3, 7, some "White Line Infringement", some "5 Sec", "Yes", none, 12000000⟩]
      = 9200000 ∧
    isSecondWarning 20000000 180 (mkWLWarning 2 7 10600000)
      [mkWLWarning 1 7 10000000, mkWLWarning 2 7 10600000,
       ⟨3, 7, some "White Line Infringement", some "5 Sec", "Yes", none, 12000000⟩]
      = false := by
  decide

/-- Claim C2, amended: the cycle start used by `isSecondWarning` equals
`max(now − expiry threshold, timestamp of the most recent infringement of the
kart/type with penalty_due = "Yes" in the whole snapshot)` — later
penalty-triggering occurrences reset the cycle too, not only prior ones
(see the counterexample).  When no such infringement exists at all, the cycle
start is the expiry threshold. -/
theorem C2_cycle_start_uses_latest_penalty (now thr kart : Int) (pat : String)
    (all : List Infringement) :
    (lastPenalty kart pat all = none →
      cycleStart now thr kart pat all = now - thr * 60000) ∧
    (∀ p, lastPenalty kart pat all = some p →
      cycleStart now thr kart pat all = max (now - thr * 60000) p.timestamp ∧
      p ∈ all ∧ p.kart_number = kart ∧ jsStrTruthy p.description = true ∧
      strIncludes (jsLower p.description) pat = true ∧ p.penalty_due = "Yes" ∧
      (∀ q ∈ all, q.kart_number = kart → jsStrTruthy q.description = true →
        strIncludes (jsLower q.description) pat = true → q.penalty_due = "Yes" →
        q.timestamp ≤ p.timestamp)) := by
  constructor
  · intro h
    simp [cycleStart, h]
  · intro p hp
    refine ⟨by simp [cycleStart, hp], ?_⟩
    unfold lastPenalty at hp
    set pred := (fun i : Infringement =>
      i.kart_number == kart &&
      (jsStrTruthy i.description && strIncludes (jsLower i.description) pat) &&
      i.penalty_due == "Yes") with hpred
    set L := all.filter pred with hL
    have hperm : (List.insertionSort tsGe L).Perm L := List.perm_insertionSort tsGe L
    have hsorted : List.Sorted tsGe (List.insertionSort tsGe L) :=
      List.sorted_insertionSort tsGe L
    obtain ⟨tl, hshape⟩ : ∃ tl, List.insertionSort tsGe L = p :: tl := by
      cases hs : List.insertionSort tsGe L with
      | nil => rw [hs] at hp; simp at hp
      | cons a tl =>
        rw [hs] at hp
        simp only [List.head?_cons, Option.some.injEq] at hp
        exact ⟨tl, by rw [hp]⟩
    have hpL : p ∈ L := hperm.mem_iff.mp (by rw [hshape]; exact List.mem_cons_self p tl)
    obtain ⟨hpall, hpredp⟩ := List.mem_filter.mp hpL
    simp only [hpred, Bool.and_eq_true, beq_iff_eq] at hpredp
    refine ⟨hpall, hpredp.1.1, hpredp.1.2.1, hpredp.1.2.2, hpredp.2, ?_⟩
    intro q hq hk ht hs hdue
    have hqL : q ∈ L := by
      rw [hL]
      exact List.mem_filter.mpr ⟨hq, by simp [hpred, hk, ht, hs, hdue]⟩
    have hq2 : q ∈ p :: tl := by rw [← hshape]; exact hperm.mem_iff.mpr hqL
    rcases List.mem_cons.mp hq2 with h | h
    · rw [h]
    · exact List.rel_of_sorted_cons (hshape ▸ hsorted) q h

/-- Witness for C2's amended theorem at the counterexample snapshot. -/
theorem C2_cycle_start_uses_latest_penalty_witness :
    cycleStart 20000000 180 7 "white line infringement"
      [mkWLWarning 1 7 10000000, mkWLWarning 2 7 10600000,
       ⟨3, 7, some "White Line Infringement", some "5 Sec", "Yes", none, 12000000⟩]
      = max (20000000 - 180 * 60000) 12000000 :=
  ((C2_cycle_start_uses_latest_penalty 20000000 180 7 "white line infringement"
      [mkWLWarning 1 7 10000000, mkWLWarning 2 7 10600000,
       ⟨3, 7, some "White Line Infringement", some "5 Sec", "Yes", none, 12000000⟩]).2
    ⟨3, 7, some "White Line Infringement", some "5 Sec", "Yes", none, 12000000⟩
    (by decide)).1

/-- Claim C3: a warning whose age strictly exceeds the expiry threshold is
excluded from the live-warning list used by the second-warning computation;
a same-kart, same-type warning that did not itself trigger a penalty
(`penalty_due = "No"`), is not older than the threshold, lies within the
cycle, and is at or before the evaluated occurrence's timestamp is
included. -/
theorem C3_expired_excluded_live_counted (now thr : Int) (inf : Infringement)
    (pat : String) (cs : Int) (all : List Infringement) (i : Infringement) :
    (i.penalty_description = some "Warning" → now - i.timestamp > thr * 60000 →
      i ∉ validWarnings now thr inf pat cs all) ∧
    (i ∈ all → i.kart_number = inf.kart_number →
      strIncludes (jsLower i.description) pat = true →
      i.penalty_description = some "Warning" → i.penalty_due = "No" →
      ¬(now - i.timestamp > thr * 60000) → cs ≤ i.timestamp →
      i.timestamp ≤ inf.timestamp →
      i ∈ validWarnings now thr inf pat cs all) := by
  constructor
  · intro hpd hage hmem
    have hcond := (List.mem_filter.mp hmem).2
    simp only [Bool.and_eq_true, Bool.not_eq_true'] at hcond
    have hexp : isExpired now thr i = true := by simp [isExpired, hpd, hage]
    have hfalse := hcond.1.2
    rw [hexp] at hfalse
    exact absurd hfalse (by simp)
  · intro hmem hk hinc hpd hdue hnage hcs hle
    refine List.mem_filter.mpr ⟨hmem, ?_⟩
    have h1 : ¬(i.timestamp < cs) := by omega
    simp [hk, hinc, hpd, hdue, isExpired, hnage, h1, hle]

/-- Witness for C3: both directions at concrete records (an expired warning
is excluded; a live in-cycle warning is included). -/
theorem C3_expired_excluded_live_counted_witness :
    mkWLWarning 9 7 0 ∉
      validWarnings 20000000 180 (mkWLWarning 2 7 10600000) "white line infringement"
        9200000 [mkWLWarning 9 7 0] ∧
    mkWLWarning 1 7 10000000 ∈
      validWarnings 20000000 180 (mkWLWarning 2 7 10600000) "white line infringement"
        9200000 [mkWLWarning 1 7 10000000] :=
  ⟨(C3_expired_excluded_live_counted 20000000 180 (mkWLWarning 2 7 10600000)
      "white line infringement" 9200000 [mkWLWarning 9 7 0] (mkWLWarning 9 7 0)).1
      rfl (by decide),
   (C3_expired_excluded_live_counted 20000000 180 (mkWLWarning 2 7 10600000)
      "white line infringement" 9200000 [mkWLWarning 1 7 10000000]
      (mkWLWarning 1 7 10000000)).2
      (by decide) rfl (by decide) rfl rfl (by decide) (by decide) (by decide)⟩

/-- Membership in the `validWarnings` filter, spelled out. -/
theorem mem_validWarnings_iff (now thr : Int) (inf : Infringement) (pat : String)
    (cs : Int) (all : List Infringement) (i : Infringement) :
    i ∈ validWarnings now thr inf pat cs all ↔
      i ∈ all ∧ i.kart_number = inf.kart_number ∧
      strIncludes (jsLower i.description) pat = true ∧
      i.penalty_description = some "Warning" ∧ ¬(i.penalty_due = "Yes") ∧
      ¬(i.timestamp < cs) ∧ isExpired now thr i = false ∧
      i.timestamp ≤ inf.timestamp := by
  simp [validWarnings, List.mem_filter, Bool.and_eq_true, Bool.not_eq_true',
    beq_iff_eq, decide_eq_true_eq, decide_eq_false_iff_not, and_assoc]

/-- A record of the evaluated occurrence's valid-warning list is also in a
later occurrence's valid-warning list (same kart and pattern, later cutoff). -/
theorem validWarnings_mono (now thr : Int) (X Y : Infringement) (pat : String)
    (cs : Int) (all : List Infringement)
    (hkart : X.kart_number = Y.kart_number)
    (hle : X.timestamp ≤ Y.timestamp) (i : Infringement)
    (hi : i ∈ validWarnings now thr X pat cs all) :
    i ∈ validWarnings now thr Y pat cs all := by
  rw [mem_validWarnings_iff] at hi ⊢
  obtain ⟨h1, h2, h3, h4, h5, h6, h7, h8⟩ := hi
  exact ⟨h1, hkart ▸ h2, h3, h4, h5, h6, h7, le_trans h8 hle⟩

/-- If the JavaScript `findIndex` finds an index, some list element satisfies
the predicate. -/
theorem findIdxO_some_mem {p : Infringement → Bool} :
    ∀ {l : List Infringement} {n : Nat},
      findIdxO p l = some n → ∃ y ∈ l, p y = true := by
  intro l
  induction l with
  | nil => intro n h; simp [findIdxO] at h
  | cons a rest ih =>
    intro n h
    by_cases hpa : p a = true
    · exact ⟨a, List.mem_cons_self a rest, hpa⟩
    · rw [findIdxO, if_neg hpa] at h
      cases hr : findIdxO p rest with
      | none => rw [hr] at h; simp at h
      | some m =>
        obtain ⟨y, hy, hpy⟩ := ih hr
        exact ⟨y, List.mem_cons_of_mem a hy, hpy⟩

/-- In a list sorted by ascending timestamp in which `X`'s id and timestamp
identify it uniquely, the JavaScript `findIndex` of `X`'s id equals the
number of elements with a strictly smaller timestamp. -/
theorem findIdxO_sorted_eq_countP (X : Infringement) :
    ∀ (L : List Infringement), List.Sorted tsLe L → X ∈ L →
      (∀ y ∈ L, y.id = X.id → y = X) →
      (∀ y ∈ L, y.timestamp = X.timestamp → y = X) →
      findIdxO (fun w => w.id == X.id) L =
        some (L.countP (fun w => decide (w.timestamp < X.timestamp))) := by
  intro L
  induction L with
  | nil => intro _ hX _ _; exact absurd hX (List.not_mem_nil X)
  | cons a rest ih =>
    intro hs hX hid hts
    by_cases hax : a = X
    · subst hax
      have hzero : rest.countP (fun w => decide (w.timestamp < a.timestamp)) = 0 := by
        rw [List.countP_eq_zero]
        intro y hy
        have hle : tsLe a y := List.rel_of_sorted_cons hs y hy
        simp only [decide_eq_true_eq]
        intro hlt
        exact absurd hlt (not_lt.mpr hle)
      rw [findIdxO, if_pos (by simp), List.countP_cons, hzero]
      simp
    · have haid : (a.id == X.id) = false := by
        rw [beq_eq_false_iff_ne]
        intro he
        exact hax (hid a (List.mem_cons_self a rest) he)
      have hXrest : X ∈ rest := by
        rcases List.mem_cons.mp hX with h | h
        · exact absurd h.symm hax
        · exact h
      have halt : a.timestamp < X.timestamp := by
        have hle : tsLe a X := List.rel_of_sorted_cons hs X hXrest
        have hne : a.timestamp ≠ X.timestamp :=
          fun he => hax (hts a (List.mem_cons_self a rest) he)
        exact lt_of_le_of_ne hle hne
      have ihh := ih hs.of_cons hXrest
        (fun y hy => hid y (List.mem_cons_of_mem a hy))
        (fun y hy => hts y (List.mem_cons_of_mem a hy))
      rw [findIdxO, if_neg (by simp [haid]), ihh, List.countP_cons, if_pos (by simp [halt])]
      simp

/-- Two distinct members satisfying a predicate force its count to at least
two. -/
theorem two_mem_countP_ge_two {a b : Infringement} {l : List Infringement}
    {p : Infringement → Bool} (ha : a ∈ l) (hb : b ∈ l) (hne : a ≠ b)
    (hpa : p a = true) (hpb : p b = true) : 2 ≤ l.countP p := by
  have haf : a ∈ l.filter p := List.mem_filter.mpr ⟨ha, hpa⟩
  have hbf : b ∈ l.filter p := List.mem_filter.mpr ⟨hb, hpb⟩
  have hbe : b ∈ (l.filter p).erase a := (List.mem_erase_of_ne (Ne.symm hne)).mpr hbf
  have h1 : ((l.filter p).erase a).length = (l.filter p).length - 1 :=
    List.length_erase_of_mem haf
  have h2 : 0 < ((l.filter p).erase a).length := List.length_pos_of_mem hbe
  rw [List.countP_eq_length_filter]
  omega

/-- A flagged record reaches the `findIndex === 1` test: its core equation,
with the accrual pattern `patOf` and the cycle start spelled out. -/
theorem flag_core_of_isSecondWarning (now thr : Int) (X : Infringement)
    (all : List Infringement) (h : isSecondWarning now thr X all = true) :
    findIdxO (fun w => w.id == X.id)
      (List.insertionSort tsLe
        (validWarnings now thr X (patOf X)
          (cycleStart now thr X.kart_number (patOf X) all) all)) = some 1 := by
  unfold isSecondWarning at h
  cases hw : (X.penalty_description == some "Warning")
  · simp [hw] at h
  · cases hwl : strIncludes (jsLower X.description) "white line infringement"
    · cases hyz : strIncludes (jsLower X.description) "yellow zone"
      · simp [hw, hwl, hyz] at h
      · cases he : isExpired now thr X
        · simp [hw, hwl, hyz, he] at h
          simpa [patOf, hwl] using h
        · simp [hw, hwl, hyz, he] at h
    · cases he : isExpired now thr X
      · simp [hw, hwl, he] at h
        simpa [patOf, hwl] using h
      · simp [hw, hwl, he] at h

/-- A flagged record is in its own valid-warning list, and exactly one member
of that list has a strictly smaller timestamp. -/
theorem flag_count_one (now thr : Int) (all : List Infringement)
    (hid : (all.map Infringement.id).Nodup)
    (hts : (all.map Infringement.timestamp).Nodup)
    (X : Infringement) (hX : X ∈ all)
    (hf : isSecondWarning now thr X all = true) :
    X ∈ validWarnings now thr X (patOf X)
        (cycleStart now thr X.kart_number (patOf X) all) all ∧
    (validWarnings now thr X (patOf X)
        (cycleStart now thr X.kart_number (patOf X) all) all).countP
      (fun w => decide (w.timestamp < X.timestamp)) = 1 := by
  have core := flag_core_of_isSecondWarning now thr X all hf
  set L := validWarnings now thr X (patOf X)
    (cycleStart now thr X.kart_number (patOf X) all) all with hLdef
  set S := List.insertionSort tsLe L with hSdef
  have hperm : S.Perm L := List.perm_insertionSort tsLe L
  have hsorted : List.Sorted tsLe S := List.sorted_insertionSort tsLe L
  obtain ⟨y, hyS, hy⟩ := findIdxO_some_mem core
  have hyL : y ∈ L := hperm.mem_iff.mp hyS
  have hyall : y ∈ all := (List.mem_filter.mp (hLdef ▸ hyL)).1
  have hyid : y.id = X.id := by simpa using hy
  have hyX : y = X := List.inj_on_of_nodup_map hid hyall hX hyid
  have hXS : X ∈ S := hyX ▸ hyS
  have hXL : X ∈ L := hyX ▸ hyL
  have hid' : ∀ z ∈ S, z.id = X.id → z = X := by
    intro z hz hzid
    have hzall : z ∈ all := (List.mem_filter.mp (hLdef ▸ hperm.mem_iff.mp hz)).1
    exact List.inj_on_of_nodup_map hid hzall hX hzid
  have hts' : ∀ z ∈ S, z.timestamp = X.timestamp → z = X := by
    intro z hz hzts
    have hzall : z ∈ all := (List.mem_filter.mp (hLdef ▸ hperm.mem_iff.mp hz)).1
    exact List.inj_on_of_nodup_map hts hzall hX hzts
  have heq := findIdxO_sorted_eq_countP X S hsorted hXS hid' hts'
  rw [core] at heq
  have hcS : S.countP (fun w => decide (w.timestamp < X.timestamp)) = 1 :=
    (Option.some.injEq _ _ ▸ heq.symm : _)
  refine ⟨hXL, ?_⟩
  rw [← hperm.countP_eq]
  exact hcS

/-- Two flagged occurrences of the same kart and accrual pattern cannot be
ordered in time: the earlier one and its unique earlier live warning would
both lie strictly below the later one's timestamp in the later one's
valid-warning list, contradicting that exactly one such member exists. -/
theorem secondFlag_unique_aux (now thr : Int) (all : List Infringement)
    (hid : (all.map Infringement.id).Nodup)
    (hts : (all.map Infringement.timestamp).Nodup)
    (X Y : Infringement) (hX : X ∈ all) (hY : Y ∈ all)
    (hkart : X.kart_number = Y.kart_number)
    (hpat : patOf X = patOf Y)
    (hfX : isSecondWarning now thr X all = true)
    (hfY : isSecondWarning now thr Y all = true)
    (hlt : X.timestamp < Y.timestamp) : False := by
  obtain ⟨hXv, hXc⟩ := flag_count_one now thr all hid hts X hX hfX
  obtain ⟨hYv, hYc⟩ := flag_count_one now thr all hid hts Y hY hfY
  rw [hpat, hkart] at hXv hXc
  have hXY : X ∈ validWarnings now thr Y (patOf Y)
      (cycleStart now thr Y.kart_number (patOf Y) all) all :=
    validWarnings_mono now thr X Y (patOf Y)
      (cycleStart now thr Y.kart_number (patOf Y) all) all hkart (le_of_lt hlt) X hXv
  obtain ⟨w0, hw0mem, hw0p⟩ := List.countP_pos_iff.mp (by rw [hXc]; norm_num)
  have hw0lt : w0.timestamp < X.timestamp := of_decide_eq_true hw0p
  have hw0Y : w0 ∈ validWarnings now thr Y (patOf Y)
      (cycleStart now thr Y.kart_number (patOf Y) all) all :=
    validWarnings_mono now thr X Y (patOf Y)
      (cycleStart now thr Y.kart_number (patOf Y) all) all hkart (le_of_lt hlt) w0 hw0mem
  have hw0X : w0 ≠ X := by
    intro he
    rw [he] at hw0lt
    exact absurd hw0lt (lt_irrefl _)
  have h2 : 2 ≤ (validWarnings now thr Y (patOf Y)
      (cycleStart now thr Y.kart_number (patOf Y) all) all).countP
        (fun w => decide (w.timestamp < Y.timestamp)) :=
    two_mem_countP_ge_two hw0Y hXY hw0X
      (decide_eq_true (lt_trans hw0lt hlt)) (decide_eq_true hlt)
  rw [hYc] at h2
  omega

/-- Claim C10 counterexample: with pairwise distinct timestamps alone the
at-most-one property fails if two records share an id.  In the snapshot
below, `findIndex` locates the id 5 shared by the records at timestamps 2000
and 3000 at position 1 in both of their valid-warning lists, so both are
flagged for kart 7 / white line. -/
theorem C10_duplicate_id_double_flag :
    isSecondWarning 1000000 180 (mkWLWarning 5 7 2000)
      [mkWLWarning 9 7 1000, mkWLWarning 5 7 2000, mkWLWarning 5 7 3000] = true ∧
    isSecondWarning 1000000 180 (mkWLWarning 5 7 3000)
      [mkWLWarning 9 7 1000, mkWLWarning 5 7 2000, mkWLWarning 5 7 3000] = true ∧
    mkWLWarning 5 7 2000 ≠ mkWLWarning 5 7 3000 ∧
    ([mkWLWarning 9 7 1000, mkWLWarning 5 7 2000,
      mkWLWarning 5 7 3000].map Infringement.timestamp).Nodup := by
  decide

/-- Claim C10, amended: in a snapshot whose timestamps are pairwise distinct
and whose ids are pairwise distinct (as the data model guarantees), at most
one infringement per kart and accrual pattern carries the second-warning
flag: two flagged snapshot members with the same kart number and the same
accrual pattern are equal. -/
theorem C10_at_most_one_flag_amended (now thr : Int) (all : List Infringement)
    (hid : (all.map Infringement.id).Nodup)
    (hts : (all.map Infringement.timestamp).Nodup)
    (A B : Infringement) (hA : A ∈ all) (hB : B ∈ all)
    (hkart : A.kart_number = B.kart_number)
    (hpat : patOf A = patOf B)
    (hfA : isSecondWarning now thr A all = true)
    (hfB : isSecondWarning now thr B all = true) : A = B := by
  by_contra hne
  have htsne : A.timestamp ≠ B.timestamp :=
    fun he => hne (List.inj_on_of_nodup_map hts hA hB he)
  rcases lt_or_gt_of_ne htsne with hlt | hgt
  · exact secondFlag_unique_aux now thr all hid hts A B hA hB hkart hpat hfA hfB hlt
  · exact secondFlag_unique_aux now thr all hid hts B A hB hA hkart.symm hpat.symm
      hfB hfA hgt

/-- Witness for C10's amended theorem on a two-warning snapshot in which only
the later record is flagged; applying the theorem to it twice yields a
(trivial) equality after discharging every hypothesis concretely. -/
theorem C10_at_most_one_flag_amended_witness :
    mkWLWarning 2 7 600000 = mkWLWarning 2 7 600000 :=
  C10_at_most_one_flag_amended 1000000 180
    [mkWLWarning 1 7 0, mkWLWarning 2 7 600000]
    (by decide) (by decide)
    (mkWLWarning 2 7 600000) (mkWLWarning 2 7 600000)
    (by decide) (by decide) rfl rfl (by decide) (by decide)

/-- Claim C1: for three warnings of the same kart and accrual type at `t`,
`t + 10min`, `t + 20min`, a 180-minute expiry with all three inside the
window at render time, and no penalty-due infringement of that kart/type in
the snapshot, `isSecondWarning` is true exactly for the occurrence at
`t + 10min`. -/
theorem C1_second_warning_flag_positions (k t now : Int)
    (h : now - t ≤ 180 * 60000) :
    isSecondWarning now 180 (mkWLWarning 2 k (t + 600000))
      [mkWLWarning 1 k t, mkWLWarning 2 k (t + 600000), mkWLWarning 3 k (t + 1200000)]
      = true ∧
    isSecondWarning now 180 (mkWLWarning 1 k t)
      [mkWLWarning 1 k t, mkWLWarning 2 k (t + 600000), mkWLWarning 3 k (t + 1200000)]
      = false ∧
    isSecondWarning now 180 (mkWLWarning 3 k (t + 1200000))
      [mkWLWarning 1 k t, mkWLWarning 2 k (t + 600000), mkWLWarning 3 k (t + 1200000)]
      = false := by
  have sWL : strIncludes (jsLower (some "White Line Infringement"))
      "white line infringement" = true := by decide
  have sYZ : strIncludes (jsLower (some "White Line Infringement"))
      "yellow zone" = false := by decide
  have d1 : (t < now - 10800000) = False := eq_false (by omega)
  have d2 : (t + 600000 < now - 10800000) = False := eq_false (by omega)
  have d3 : (t + 1200000 < now - 10800000) = False := eq_false (by omega)
  have g1 : (10800000 < now - t) = False := eq_false (by omega)
  have g2 : (10800000 < now - (t + 600000)) = False := eq_false (by omega)
  have g3 : (10800000 < now - (t + 1200000)) = False := eq_false (by omega)
  have c12 : (t ≤ t + 600000) = True := eq_true (by omega)
  have c13 : (t ≤ t + 1200000) = True := eq_true (by omega)
  have c23 : (t + 600000 ≤ t + 1200000) = True := eq_true (by omega)
  have n21 : (t + 600000 ≤ t) = False := eq_false (by omega)
  have n31 : (t + 1200000 ≤ t) = False := eq_false (by omega)
  have n32 : (t + 1200000 ≤ t + 600000) = False := eq_false (by omega)
  refine ⟨?_, ?_, ?_⟩ <;>
    simp [isSecondWarning, isExpired, cycleStart, lastPenalty, validWarnings, mkWLWarning,
      tsLe, tsGe, findIdxO, sWL, sYZ, d1, d2, d3, g1, g2, g3, c12, c13, c23,
      n21, n31, n32, List.filter, List.insertionSort, List.orderedInsert]

/-- Witness for C1 at `k = 7`, `t = 0`, `now = 0`. -/
theorem C1_second_warning_flag_positions_witness :
    isSecondWarning 0 180 (mkWLWarning 2 7 600000)
      [mkWLWarning 1 7 0, mkWLWarning 2 7 600000, mkWLWarning 3 7 1200000] = true :=
  (C1_second_warning_flag_positions 7 0 0 (by decide)).1
